import Mathlib

/-
  Verification development for the instrumentation-infra package recipes
  (src/infra/packages/gperftools.py and src/infra/packages/llvm/__init__.py).

  The embedding models the recipes over an explicit state: a BuildContext
  record, a filesystem given as the list of existing paths (each path a list
  of components), a current working directory, and a trace of external
  invocations (process runs, downloads, patch applications).  External
  primitives (`run`, `download`, `apply_patch`) are out of the shown sources;
  they are modelled from the spec (sections 4.4 and 6), with the effect of
  archive extraction modelled as creating the archive's top-level directory.
-/

/-- The BuildContext record, modelled from the spec (sections 3 and 6):
compiler/linker/archiver program names, ordered compile- and link-flag
lists, a job count and a log sink (modelled as the list of emitted
messages). -/
structure Ctx where
  cc : String
  cxx : String
  ar : String
  nm : String
  ranlib : String
  cflags : List String
  cxxflags : List String
  ldflags : List String
  jobs : Nat
  log : List String
deriving Repr, DecidableEq

/-- A filesystem path, as a list of components (absolute, rooted at the
build directory that holds every package's working directory). -/
abbrev FsPath := List String

/-- One recorded external invocation.  Every event carries the working
directory it was issued from. -/
inductive Event where
  | patchEv (cwd : FsPath) (path : String) (strip : Nat)
  | cmdEv (cwd : FsPath) (args : List String)
  | shellEv (cwd : FsPath) (cmd : String)
  | downloadEv (cwd : FsPath) (url : String)
  | symlinkEv (cwd : FsPath) (src tgt : String)
deriving Repr, DecidableEq

/-- Whether an event is a patch application. -/
def Event.isPatch : Event → Bool
  | .patchEv _ _ _ => true
  | _ => false

/-- The full mutable state threaded through every recipe operation. -/
structure St where
  ctx : Ctx
  fs : List FsPath
  cwd : FsPath
  trace : List Event
deriving Repr, DecidableEq

/-- The external world the recipes consult: the result of `apply_patch`
(whether the given resolved patch file actually modified the tree), and
the result of probing a preinstalled `llvm-config --version`
(`none` when the probe process could not be run at all, otherwise the
exit status and captured stdout).  Modelled from the spec (sections 4.4
and 6). -/
structure ExtWorld where
  patchApplies : String → Bool
  llvmConfig : Option (Int × String)

/-- os.path.exists on a path relative to the current working directory. -/
def pathExists (st : St) (p : FsPath) : Bool :=
  st.fs.contains (st.cwd ++ p)

/-- Record a path (relative to cwd) as now existing. -/
def addPath (st : St) (p : FsPath) : St :=
  { st with fs := st.fs ++ [st.cwd ++ p] }

/-- os.makedirs with exist_ok: create the directory if absent. -/
def makedirs (st : St) (p : FsPath) : St :=
  if pathExists st p then st else addPath st p

/-- os.remove of a path relative to cwd. -/
def removePath (st : St) (p : FsPath) : St :=
  { st with fs := st.fs.filter (fun q => q ≠ st.cwd ++ p) }

/-- If `base` is a path prefix of `q`, return the remaining components. -/
def remainderOf : FsPath → FsPath → Option FsPath
  | [], q => some q
  | _ :: _, [] => none
  | a :: as, b :: bs => if a = b then remainderOf as bs else none

/-- Rename one path under a move of `src` to `dst`. -/
def movePath (src dst q : FsPath) : FsPath :=
  match remainderOf src q with
  | some r => dst ++ r
  | none => q

/-- shutil.move: rename `a` (relative to cwd) and everything under it
to `b` (relative to cwd). -/
def fsMove (st : St) (a b : FsPath) : St :=
  { st with fs := st.fs.map (movePath (st.cwd ++ a) (st.cwd ++ b)) }

/-- os.chdir with a relative path. -/
def chdirRel (st : St) (p : FsPath) : St :=
  { st with cwd := st.cwd ++ p }

/-- os.chdir with an absolute path. -/
def chdirAbs (st : St) (p : FsPath) : St :=
  { st with cwd := p }

/-- os.chdir("..") : drop the last component of cwd. -/
def chdirUp (st : St) : St :=
  { st with cwd := st.cwd.dropLast }

/-- The process-invocation primitive with an argument list, modelled from
the spec (section 6): it records the invocation; its effect on the tree is
modelled separately where a probe depends on it. -/
def runCmd (st : St) (args : List String) : St :=
  { st with trace := st.trace ++ [.cmdEv st.cwd args] }

/-- The process-invocation primitive with a shell string, modelled from the
spec (section 6). -/
def runShell (st : St) (c : String) : St :=
  { st with trace := st.trace ++ [.shellEv st.cwd c] }

/-- The Python membership test `"/" in s`, computed on the character
list so that proofs can evaluate it. -/
def strHasSlash (s : String) : Bool :=
  s.data.contains '/'

/-- The Python str.strip(): drop leading and trailing whitespace,
computed on the character list so that proofs can evaluate it. -/
def strTrim (s : String) : String :=
  ⟨((s.data.dropWhile Char.isWhitespace).reverse.dropWhile Char.isWhitespace).reverse⟩

/-- Last `/`-separated segment of a URL: the remote filename. -/
def lastSeg (url : String) : String :=
  ⟨(url.data.reverse.takeWhile (fun c => c != '/')).reverse⟩

/-- The download primitive, modelled from the spec (section 6): retrieves
the resource into the current working directory under its remote
filename. -/
def download (st : St) (url : String) : St :=
  { st with fs := st.fs ++ [st.cwd ++ [lastSeg url]],
            trace := st.trace ++ [.downloadEv st.cwd url] }

/-- The patch-application primitive, modelled from the spec (section 4.4):
records the application and reports (via the external world) whether an
actual modification occurred; already-applied patches are a no-op, not an
error. -/
def applyPatchPrim (e : ExtWorld) (st : St) (path : String) (strip : Nat) : Bool × St :=
  (e.patchApplies path,
   { st with trace := st.trace ++ [.patchEv st.cwd path strip] })

/-- ctx.log.warning. -/
def logWarning (st : St) (m : String) : St :=
  { st with ctx := { st.ctx with log := st.ctx.log ++ ["warning: " ++ m] } }

/-- ctx.log.debug. -/
def logDebug (st : St) (m : String) : St :=
  { st with ctx := { st.ctx with log := st.ctx.log ++ ["debug: " ++ m] } }

/-- A package's private working directory, modelled from the spec
(PathResolver, section 2): derived from the identifier, with a subpath.
`self.path(ctx, sub...)` in the source. -/
def pkgPath (iden : String) (sub : FsPath) : FsPath :=
  iden :: sub

/-- Render an absolute path as a string (used only inside command
arguments such as `--prefix=...`). -/
def pathStr (p : FsPath) : String :=
  "/" ++ String.intercalate "/" p

/-- os.path.dirname(os.path.abspath(__file__)) for
src/infra/packages/gperftools.py. -/
def packagesDir : String := "/infra/packages"

/-- os.path.dirname(os.path.abspath(__file__)) for
src/infra/packages/llvm/__init__.py. -/
def llvmDir : String := "/infra/packages/llvm"

/- ---------------------------------------------------------------- -/
/- LibUnwind (src/infra/packages/gperftools.py, lines 11-66)         -/
/- ---------------------------------------------------------------- -/

/-- The LibUnwind recipe's construction parameters
(gperftools.py lines 17-19). -/
structure LibUnwind where
  version : String
  patches : List String
deriving Repr, DecidableEq

/-- LibUnwind.ident (gperftools.py lines 21-22). -/
def LibUnwind.ident (p : LibUnwind) : String :=
  "libunwind-" ++ p.version

/-- LibUnwind.is_fetched (gperftools.py lines 24-25): os.path.exists("src"). -/
def LibUnwind.is_fetched (_p : LibUnwind) (st : St) : Bool × St :=
  (pathExists st ["src"], st)

/-- LibUnwind.fetch (gperftools.py lines 27-34).  The effect of `tar -xf`
(creating the archive's top directory) is modelled from the spec. -/
def LibUnwind.fetch (p : LibUnwind) (st : St) : St :=
  let dirname := p.ident
  let tarname := dirname ++ ".tar.gz"
  let st := download st ("http://download.savannah.gnu.org/releases/libunwind/" ++ tarname)
  let st := runCmd st ["tar", "-xf", tarname]
  let st := addPath st [dirname]
  let st := fsMove st [dirname] ["src"]
  removePath st [tarname]

/-- LibUnwind.is_built (gperftools.py lines 36-37). -/
def LibUnwind.is_built (_p : LibUnwind) (st : St) : Bool × St :=
  (pathExists st ["obj", "src", ".libs", "libunwind.so"], st)

/-- Patch-reference resolution in LibUnwind._apply_patches
(gperftools.py lines 43-44): a reference containing "/" is used verbatim,
a bare name resolves to `<packagesDir>/<name>.patch`. -/
def LibUnwind.resolvePatch (ref : String) : String :=
  if strHasSlash ref then ref else packagesDir ++ "/" ++ ref ++ ".patch"

/-- One iteration of the loop in LibUnwind._apply_patches
(gperftools.py lines 42-46). -/
def LibUnwind.patchStep (e : ExtWorld) (st : St) (ref : String) : St :=
  let path := LibUnwind.resolvePatch ref
  let r := applyPatchPrim e st path 1
  if r.1 then logWarning r.2 ("applied patch " ++ path ++ " to libunwind directory")
  else r.2

/-- LibUnwind._apply_patches (gperftools.py lines 39-47). -/
def LibUnwind._apply_patches (p : LibUnwind) (e : ExtWorld) (st : St) : St :=
  let st := chdirAbs st (pkgPath p.ident ["src"])
  let st := p.patches.foldl (LibUnwind.patchStep e) st
  chdirAbs st (pkgPath p.ident [])

/-- The compile part of LibUnwind.build (gperftools.py lines 52-56). -/
def LibUnwind.buildCompile (p : LibUnwind) (st : St) : St :=
  let st := makedirs st ["obj"]
  let st := chdirRel st ["obj"]
  let st :=
    if !(pathExists st ["Makefile"]) then
      runCmd st ["../src/configure", "--prefix=" ++ pathStr (pkgPath p.ident ["install"])]
    else st
  runShell st ("make -j" ++ toString st.ctx.jobs)

/-- LibUnwind.build (gperftools.py lines 49-56): apply the declared
patches, then configure and compile. -/
def LibUnwind.build (p : LibUnwind) (e : ExtWorld) (st : St) : St :=
  p.buildCompile (p._apply_patches e st)

/-- LibUnwind.is_installed (gperftools.py lines 58-59). -/
def LibUnwind.is_installed (_p : LibUnwind) (st : St) : Bool × St :=
  (pathExists st ["install", "lib", "libunwind.so"], st)

/-- LibUnwind.install (gperftools.py lines 61-63). -/
def LibUnwind.install (_p : LibUnwind) (st : St) : St :=
  let st := chdirRel st ["obj"]
  runShell st "make install"

/-- LibUnwind.configure (gperftools.py lines 65-66): append the install
lib directory and -lunwind to the link flags. -/
def LibUnwind.configure (p : LibUnwind) (st : St) : St :=
  { st with ctx := { st.ctx with
      ldflags := st.ctx.ldflags ++
        ["-L" ++ pathStr (pkgPath p.ident ["install", "lib"]), "-lunwind"] } }

/- ---------------------------------------------------------------- -/
/- Gperftools (src/infra/packages/gperftools.py, lines 69-155)       -/
/- ---------------------------------------------------------------- -/

/-- The Gperftools recipe's construction state (gperftools.py lines
77-80): the commit, the LibUnwind dependency instance built from the
libunwind_version argument, and the patch list. -/
structure Gperftools where
  commit : String
  libunwind : LibUnwind
  patches : List String
deriving Repr, DecidableEq

/-- Gperftools.__init__ (gperftools.py lines 77-80). -/
def Gperftools.init (commit : String) (libunwind_version : String)
    (patches : List String) : Gperftools :=
  { commit := commit, libunwind := ⟨libunwind_version, []⟩, patches := patches }

/-- Gperftools.ident (gperftools.py lines 82-83). -/
def Gperftools.ident (p : Gperftools) : String :=
  "gperftools-" ++ p.commit

/-- Gperftools.is_fetched (gperftools.py lines 89-90). -/
def Gperftools.is_fetched (_p : Gperftools) (st : St) : Bool × St :=
  (pathExists st ["src"], st)

/-- Gperftools.fetch (gperftools.py lines 92-95).  The effect of git clone
(creating "src") is modelled from the spec. -/
def Gperftools.fetch (p : Gperftools) (st : St) : St :=
  let st := runShell st "git clone https://github.com/gperftools/gperftools.git src"
  let st := addPath st ["src"]
  let st := chdirRel st ["src"]
  runCmd st ["git", "checkout", p.commit]

/-- Gperftools.is_built (gperftools.py lines 97-98). -/
def Gperftools.is_built (_p : Gperftools) (st : St) : Bool × St :=
  (pathExists st ["obj", ".libs", "libtcmalloc.so"], st)

/-- One iteration of the loop in Gperftools._apply_patches
(gperftools.py lines 103-107); the resolution rule is the same as
LibUnwind's (same built-in directory). -/
def Gperftools.patchStep (e : ExtWorld) (st : St) (ref : String) : St :=
  let path := LibUnwind.resolvePatch ref
  let r := applyPatchPrim e st path 1
  if r.1 then logWarning r.2 ("applied patch " ++ path ++ " to gperftools directory")
  else r.2

/-- Gperftools._apply_patches (gperftools.py lines 100-108). -/
def Gperftools._apply_patches (p : Gperftools) (e : ExtWorld) (st : St) : St :=
  let st := chdirAbs st (pkgPath p.ident ["src"])
  let st := p.patches.foldl (Gperftools.patchStep e) st
  chdirAbs st (pkgPath p.ident [])

/-- The compile part of Gperftools.build (gperftools.py lines 113-131):
regenerate the autotools scripts if needed (goto_rootdir is modelled from
the spec's PathResolver as repositioning to the package root), then
configure and compile out of tree. -/
def Gperftools.buildCompile (p : Gperftools) (st : St) : St :=
  let st :=
    if !(pathExists st ["src", "configure"]) || !(pathExists st ["src", "INSTALL"]) then
      let st := chdirRel st ["src"]
      let st := runShell st "autoreconf -vfi"
      chdirAbs st (pkgPath p.ident [])
    else st
  let st := makedirs st ["obj"]
  let st := chdirRel st ["obj"]
  let st :=
    if !(pathExists st ["Makefile"]) then
      runCmd st
        ["../src/configure",
         "CPPFLAGS=-I" ++ pathStr (pkgPath p.libunwind.ident ["install", "include"]),
         "LDFLAGS=-L" ++ pathStr (pkgPath p.libunwind.ident ["install", "lib"]),
         "--prefix=" ++ pathStr (pkgPath p.ident ["install"])]
    else st
  runShell st ("make -j" ++ toString st.ctx.jobs)

/-- Gperftools.build (gperftools.py lines 110-131): apply the declared
patches, then configure and compile. -/
def Gperftools.build (p : Gperftools) (e : ExtWorld) (st : St) : St :=
  p.buildCompile (p._apply_patches e st)

/-- Gperftools.is_installed (gperftools.py lines 133-134). -/
def Gperftools.is_installed (_p : Gperftools) (st : St) : Bool × St :=
  (pathExists st ["install", "lib", "libtcmalloc.so"], st)

/-- Gperftools.install (gperftools.py lines 136-138). -/
def Gperftools.install (_p : Gperftools) (st : St) : St :=
  let st := chdirRel st ["obj"]
  runShell st "make install"

/-- Gperftools.configure (gperftools.py lines 140-155): configure the
libunwind dependency, then append -fno-builtin flags and include path to
the compile flags and the tcmalloc link flags to the link flags. -/
def Gperftools.configure (p : Gperftools) (st : St) : St :=
  let st := p.libunwind.configure st
  let cfl := (["malloc", "calloc", "realloc", "free"].map
      (fun fn => "-fno-builtin-" ++ fn)) ++
    ["-I", pathStr (pkgPath p.ident ["install", "include", "gperftools"])]
  { st with ctx := { st.ctx with
      cflags := st.ctx.cflags ++ cfl,
      cxxflags := st.ctx.cxxflags ++ cfl,
      ldflags := st.ctx.ldflags ++
        ["-L" ++ pathStr (pkgPath p.ident ["install", "lib"]), "-ltcmalloc", "-lpthread"] } }

/- ---------------------------------------------------------------- -/
/- LLVM (src/infra/packages/llvm/__init__.py, lines 14-282)          -/
/- ---------------------------------------------------------------- -/

/-- A patch reference of the LLVM recipe: either a plain string, or the
tuple form `(directory, path)` that names a target subdirectory to apply
the patch in (llvm/__init__.py lines 154-161). -/
inductive PatchRef where
  | plain (path : String)
  | sub (dir : String) (path : String)
deriving Repr, DecidableEq

/-- The LLVM recipe's construction state (llvm/__init__.py lines 54-75;
the list held in `patches` is the contents at the time of use — the
aliasing of the constructor's default argument is modelled separately
below). -/
structure LLVM where
  version : String
  compiler_rt : Bool
  lld : Bool
  commit : Option String
  patches : List PatchRef
  build_flags : List String
deriving Repr, DecidableEq

/-- The numeric value of a digit string (int() on the version's leading
component, which is numeric for every supported version). -/
def digitsVal (l : List Char) : Nat :=
  l.foldl (fun n c => n * 10 + (c.toNat - 48)) 0

/-- int(self.version.split(".")[0]). -/
def majorVersion (v : String) : Nat :=
  digitsVal (v.data.takeWhile (fun c => c != '.'))

/-- The identifier of the class-level BinUtils("2.38", gold=True)
dependency (llvm/__init__.py line 52).  Modelled from the spec: the
BinUtils recipe is not among the shown sources; per the spec's data model
its identifier is name plus version. -/
def binutilsIdent : String := "binutils-2.38"

/-- LLVM.ident (llvm/__init__.py lines 77-79). -/
def LLVM.ident (p : LLVM) : String :=
  "llvm-" ++ p.version ++ (if p.lld then "-lld" else "")

/-- Patch-reference resolution in LLVM.build (llvm/__init__.py lines
163-164): a reference containing "/" is used verbatim, a bare name
resolves to `<llvmDir>/<name>-<version>.patch`. -/
def LLVM.resolvePatch (p : LLVM) (path : String) : String :=
  if strHasSlash path then path
  else llvmDir ++ "/" ++ path ++ "-" ++ p.version ++ ".patch"

/-- One iteration of the patch loop in LLVM.build (llvm/__init__.py lines
153-168): a tuple reference saves the working directory, moves into the
target subdirectory, applies, and restores; the returned boolean of
apply_patch is discarded. -/
def LLVM.patchStep (p : LLVM) (e : ExtWorld) (st : St) (ref : PatchRef) : St :=
  match ref with
  | .plain path => (applyPatchPrim e st (p.resolvePatch path) 1).2
  | .sub d path =>
      let original := st.cwd
      let st := chdirRel st [d]
      let st := (applyPatchPrim e st (p.resolvePatch path) 1).2
      chdirAbs st original

/-- The patch phase of LLVM.build (llvm/__init__.py lines 151-169):
chdir into src, apply every declared patch, chdir back up. -/
def LLVM.applyPatchesPhase (p : LLVM) (e : ExtWorld) (st : St) : St :=
  let st := chdirRel st ["src"]
  let st := p.patches.foldl (p.patchStep e) st
  chdirUp st

/-- The cmake/compile part of LLVM.build (llvm/__init__.py lines
171-221). -/
def LLVM.buildCompile (p : LLVM) (st : St) : St :=
  let st := makedirs st ["obj"]
  let st := chdirRel st ["obj"]
  let st :=
    if p.commit.isSome || 9 ≤ majorVersion p.version then
      let projects := ["clang"] ++ (if p.lld then ["lld"] else [])
      let runtimes := if p.compiler_rt then ["compiler-rt"] else []
      runCmd st
        (["cmake", "-G", "Ninja",
          "-DCMAKE_INSTALL_PREFIX=" ++ pathStr (pkgPath p.ident ["install"]),
          "-DLLVM_BINUTILS_INCDIR=" ++ pathStr (pkgPath binutilsIdent ["install", "include"]),
          "-DLLVM_ENABLE_PROJECTS=" ++ String.intercalate "," projects,
          "-DLLVM_ENABLE_RUNTIMES=" ++ String.intercalate "," runtimes,
          "-DCMAKE_BUILD_TYPE=Release",
          "-DLLVM_ENABLE_ASSERTIONS=On",
          "-DLLVM_OPTIMIZED_TABLEGEN=On",
          "-DCMAKE_C_COMPILER=gcc",
          "-DCMAKE_CXX_COMPILER=g++"] ++ p.build_flags ++ ["../src/llvm"])
    else
      runCmd st
        (["cmake", "-G", "Ninja",
          "-DCMAKE_INSTALL_PREFIX=" ++ pathStr (pkgPath p.ident ["install"]),
          "-DLLVM_BINUTILS_INCDIR=" ++ pathStr (pkgPath binutilsIdent ["install", "include"]),
          "-DCMAKE_BUILD_TYPE=Release",
          "-DLLVM_ENABLE_ASSERTIONS=On",
          "-DLLVM_OPTIMIZED_TABLEGEN=On",
          "-DCMAKE_C_COMPILER=gcc",
          "-DCMAKE_CXX_COMPILER=g++"] ++ p.build_flags ++ ["../src"])
  runShell st ("cmake --build . -- -j " ++ toString st.ctx.jobs)

/-- LLVM.build (llvm/__init__.py lines 143-221): apply the declared
patches, then configure and compile with cmake. -/
def LLVM.build (p : LLVM) (e : ExtWorld) (st : St) : St :=
  p.buildCompile (p.applyPatchesPhase e st)

/-- The inner helper `get` of LLVM.fetch (llvm/__init__.py lines 100-121).
The effect of `tar -xf` (creating the archive's top directory) is
modelled from the spec. -/
def LLVM.get (p : LLVM) (repo : String) (clonedir : FsPath) (st : St) : St :=
  let st :=
    match clonedir.dropLast with
    | [] => st
    | base => makedirs st base
  let dirname := repo ++ "-" ++ p.version ++ ".src"
  let tarname := dirname ++ ".tar.xz"
  let st :=
    if 8 ≤ majorVersion p.version then
      download st
        ("https://github.com/llvm/llvm-project/releases/download/llvmorg-"
          ++ p.version ++ "/" ++ tarname)
    else
      download st ("https://releases.llvm.org/" ++ p.version ++ "/" ++ tarname)
  let st := runCmd st ["tar", "-xf", tarname]
  let st := addPath st [dirname]
  let st := fsMove st [dirname] clonedir
  removePath st [tarname]

/-- LLVM.fetch (llvm/__init__.py lines 91-141).  The effect of git clone
(creating "src") is modelled from the spec. -/
def LLVM.fetch (p : LLVM) (st : St) : St :=
  match p.commit with
  | some c =>
      let st := runCmd st ["git", "clone", "https://github.com/llvm/llvm-project.git", "src"]
      let st := addPath st ["src"]
      let st := chdirRel st ["src"]
      runCmd st ["git", "checkout", c]
  | none =>
      let mv := majorVersion p.version
      if 9 ≤ mv then p.get "llvm-project" ["src"] st
      else
        let st := p.get "llvm" ["src"] st
        let st :=
          if 8 ≤ mv then p.get "clang" ["src", "tools", "clang"] st
          else p.get "cfe" ["src", "tools", "clang"] st
        let st := if p.compiler_rt then p.get "compiler-rt" ["src", "projects", "compiler-rt"] st else st
        if p.lld then p.get "lld" ["src", "projects", "lld"] st else st

/-- LLVM.install (llvm/__init__.py lines 223-225). -/
def LLVM.install (_p : LLVM) (st : St) : St :=
  let st := chdirRel st ["obj"]
  runShell st "cmake --build . --target install"

/-- LLVM.is_fetched (llvm/__init__.py lines 227-228). -/
def LLVM.is_fetched (_p : LLVM) (st : St) : Bool × St :=
  (pathExists st ["src"], st)

/-- LLVM.is_built (llvm/__init__.py lines 230-231). -/
def LLVM.is_built (_p : LLVM) (st : St) : Bool × St :=
  (pathExists st ["obj", "bin", "llvm-config"], st)

/-- LLVM.is_installed (llvm/__init__.py lines 233-248): when no patches
are declared, probe a preinstalled `llvm-config --version` in
allow-non-zero-exit mode; an exit status of zero with a reported version
equal to the required one short-circuits to true, a differing version is
logged at debug level; in every other case fall back to the existence of
install/bin/llvm-config. -/
def LLVM.is_installed (p : LLVM) (e : ExtWorld) (st : St) : Bool × St :=
  if p.patches.isEmpty then
    let st := { st with trace := st.trace ++ [.shellEv st.cwd "llvm-config --version"] }
    match e.llvmConfig with
    | some (rc, out) =>
        if rc = 0 then
          let installed := strTrim out
          if installed = p.version then (true, st)
          else
            let st := logDebug st ("installed llvm-config version " ++ installed
              ++ " is different from required " ++ p.version)
            (pathExists st ["install", "bin", "llvm-config"], st)
        else (pathExists st ["install", "bin", "llvm-config"], st)
    | none => (pathExists st ["install", "bin", "llvm-config"], st)
  else (pathExists st ["install", "bin", "llvm-config"], st)

/-- LLVM.configure (llvm/__init__.py lines 250-264): set the toolchain
program names and reset the three flag lists to empty. -/
def LLVM.configure (_p : LLVM) (st : St) : St :=
  { st with ctx := { st.ctx with
      cc := "clang", cxx := "clang++", ar := "llvm-ar", nm := "llvm-nm",
      ranlib := "llvm-ranlib", cflags := [], cxxflags := [], ldflags := [] } }

/- ---------------------------------------------------------------- -/
/- LLVMBinDist (src/infra/packages/llvm/__init__.py, lines 285-334)  -/
/- ---------------------------------------------------------------- -/

/-- The LLVMBinDist dataclass (llvm/__init__.py lines 285-300). -/
structure LLVMBinDist where
  version : String
  target : String
  bin_suffix : String
deriving Repr, DecidableEq

/-- LLVMBinDist.ident (llvm/__init__.py lines 302-303). -/
def LLVMBinDist.ident (p : LLVMBinDist) : String :=
  "llvmbin-" ++ p.version

/-- LLVMBinDist.is_fetched (llvm/__init__.py lines 305-306). -/
def LLVMBinDist.is_fetched (_p : LLVMBinDist) (st : St) : Bool × St :=
  (pathExists st ["src"], st)

/-- LLVMBinDist.fetch (llvm/__init__.py lines 308-314).  The effect of
`tar -xf` (creating the archive's top directory) is modelled from the
spec. -/
def LLVMBinDist.fetch (p : LLVMBinDist) (st : St) : St :=
  let iden := "clang+llvm-" ++ p.version ++ "-" ++ p.target
  let tarname := iden ++ ".tar.xz"
  let st := download st ("http://releases.llvm.org/" ++ p.version ++ "/" ++ tarname)
  let st := runCmd st ["tar", "-xf", tarname]
  let st := addPath st [iden]
  let st := fsMove st [iden] ["src"]
  removePath st [tarname]

/-- LLVMBinDist.is_built (llvm/__init__.py lines 316-317): always true. -/
def LLVMBinDist.is_built (_p : LLVMBinDist) (st : St) : Bool × St :=
  (true, st)

/-- LLVMBinDist.build (llvm/__init__.py lines 319-320): pass. -/
def LLVMBinDist.build (_p : LLVMBinDist) (st : St) : St := st

/-- LLVMBinDist.is_installed (llvm/__init__.py lines 322-323). -/
def LLVMBinDist.is_installed (_p : LLVMBinDist) (st : St) : Bool × St :=
  (pathExists st ["install"], st)

/-- LLVMBinDist.install (llvm/__init__.py lines 325-334): move the
fetched src tree to install, then optionally create suffixed symlinks for
the four main binaries. -/
def LLVMBinDist.install (p : LLVMBinDist) (st : St) : St :=
  let st := fsMove st ["src"] ["install"]
  let st := chdirRel st ["install", "bin"]
  if p.bin_suffix ≠ "" then
    ["clang", "clang++", "opt", "llvm-config"].foldl
      (fun st src =>
        let tgt := src ++ p.bin_suffix
        if pathExists st [src] && !(pathExists st [tgt]) then
          let st := logDebug st ("creating symlink " ++ tgt ++ " -> " ++ src)
          let st := { st with trace := st.trace ++ [.symlinkEv st.cwd src tgt] }
          addPath st [tgt]
        else st) st
  else st

/- ---------------------------------------------------------------- -/
/- LifecycleExecutor, modelled from the spec (section 4.3)           -/
/- ---------------------------------------------------------------- -/

/-- The lifecycle capability record a package presents to the executor
(spec section 4.1). -/
structure PackageOps where
  iden : String
  is_fetched : St → Bool × St
  fetch : St → St
  is_built : St → Bool × St
  build : St → St
  is_installed : St → Bool × St
  install : St → St
  configure : St → St

/-- How many times each mutating stage was invoked during one executor
run. -/
structure RunCounts where
  fetches : Nat
  builds : Nat
  installs : Nat
deriving Repr, DecidableEq

/-- Step 1 of the executor, modelled from the spec (section 4.3):
position the working directory for the package, creating it if absent. -/
def position (iden : String) (st : St) : St :=
  let st := { st with cwd := [] }
  let st := makedirs st [iden]
  chdirAbs st [iden]

/-- One executor pass over a single package with no force flags, modelled
from the spec (section 4.3): position the working directory, invoke each
of fetch/build/install only when its probe reports false, then invoke
configure; the post-stage re-check, whose only effect is aborting the
run, is not modelled (no claim here depends on abort behavior).  Returns
the final state and the number of invocations of each mutating stage. -/
def execute (p : PackageOps) (st : St) : St × RunCounts :=
  let st := position p.iden st
  let f := p.is_fetched st
  let r1 : St × Nat := if f.1 then (f.2, 0) else (p.fetch f.2, 1)
  let b := p.is_built r1.1
  let r2 : St × Nat := if b.1 then (b.2, 0) else (p.build b.2, 1)
  let i := p.is_installed r2.1
  let r3 : St × Nat := if i.1 then (i.2, 0) else (p.install i.2, 1)
  (p.configure r3.1, ⟨r1.2, r2.2, r3.2⟩)

/-- The lifecycle record of an LLVMBinDist package.  LLVMBinDist declares
no configure of its own; modelled from the spec (section 4.1), its
configure step appends nothing. -/
def LLVMBinDist.ops (p : LLVMBinDist) : PackageOps :=
  { iden := p.ident,
    is_fetched := p.is_fetched,
    fetch := p.fetch,
    is_built := p.is_built,
    build := p.build,
    is_installed := p.is_installed,
    install := p.install,
    configure := fun st => st }

/- ---------------------------------------------------------------- -/
/- LLVM.__init__ and the shared default patch list                   -/
/- (src/infra/packages/llvm/__init__.py, lines 54-75)                -/
/- ---------------------------------------------------------------- -/

/-- A heap of patch lists; a patch-list reference is an index into it.
Python lists are mutable objects shared by reference, and a mutable
default argument is one single list shared by every call that omits the
argument — this heap makes that sharing explicit. -/
abbrev PatchHeap := List (List PatchRef)

/-- Read a patch list from the heap. -/
def heapGet (h : PatchHeap) (r : Nat) : List PatchRef :=
  h.getD r []

/-- list.append on the heap cell `r`. -/
def heapAppend (h : PatchHeap) (r : Nat) (x : PatchRef) : PatchHeap :=
  h.set r (heapGet h r ++ [x])

/-- The object world in which LLVM instances are constructed: the heap of
patch lists and the reference of the single default list created when the
`patches: List[str] = []` default of LLVM.__init__ was evaluated. -/
structure World where
  heap : PatchHeap
  llvmDefault : Nat
deriving Repr, DecidableEq

/-- The world at interpreter start: only the default list (empty)
exists. -/
def World.init : World := ⟨[[]], 0⟩

/-- Allocate a fresh caller-owned patch list. -/
def allocList (w : World) (l : List PatchRef) : Nat × World :=
  (w.heap.length, { w with heap := w.heap ++ [l] })

/-- An LLVM instance as stored by LLVM.__init__: the patches field is a
reference to a (possibly shared) heap list. -/
structure LLVMObj where
  version : String
  compiler_rt : Bool
  lld : Bool
  commit : Option String
  patches : Nat
  build_flags : List String
deriving Repr, DecidableEq

/-- LLVM.__init__ (llvm/__init__.py lines 54-75): store the arguments;
when the patches argument is omitted the one shared default list is used;
when compiler_rt is set and the version is 4.0.0, append
"compiler-rt-typefix" to that list in place. -/
def LLVMObj.init (w : World) (version : String) (compiler_rt : Bool)
    (commit : Option String) (lld : Bool) (patchesArg : Option Nat)
    (build_flags : List String) : LLVMObj × World :=
  let r := match patchesArg with
           | some r => r
           | none => w.llvmDefault
  let w :=
    if compiler_rt && version = "4.0.0" then
      { w with heap := heapAppend w.heap r (.plain "compiler-rt-typefix") }
    else w
  (⟨version, compiler_rt, lld, commit, r, build_flags⟩, w)

/- ---------------------------------------------------------------- -/
/- Shared predicates and concrete instances used by the theorems     -/
/- ---------------------------------------------------------------- -/

/-- A trace fragment containing no patch applications. -/
def patchFree (t : List Event) : Prop :=
  ∀ ev ∈ t, ev.isPatch = false

/-- `b` extends `a` by a patch-free trace: whatever external invocations
happened between the two states, none was a patch application. -/
def traceExt (a b : St) : Prop :=
  ∃ t, b.trace = a.trace ++ t ∧ patchFree t

/-- A state with the log sink emptied: two states equal under eraseLog
agree on everything except what was logged. -/
def eraseLog (st : St) : St :=
  { st with ctx := { st.ctx with log := [] } }

/-- The probe frame: the second state agrees with the first on all
compiler/linker program names, on all three flag lists, on the filesystem
and on the working directory. -/
def framePreserved (a b : St) : Prop :=
  b.ctx.cc = a.ctx.cc ∧ b.ctx.cxx = a.ctx.cxx ∧ b.ctx.ar = a.ctx.ar ∧
  b.ctx.nm = a.ctx.nm ∧ b.ctx.ranlib = a.ctx.ranlib ∧
  b.ctx.cflags = a.ctx.cflags ∧ b.ctx.cxxflags = a.ctx.cxxflags ∧
  b.ctx.ldflags = a.ctx.ldflags ∧ b.fs = a.fs ∧ b.cwd = a.cwd

/-- The patch event emitted for one LLVM patch reference when the loop of
LLVM.build runs with `base` as the source directory: a plain reference is
applied in `base`, a tuple reference in the named subdirectory of
`base`. -/
def llvmPatchEv (l : LLVM) (base : FsPath) : PatchRef → Event
  | .plain q => .patchEv base (l.resolvePatch q) 1
  | .sub d q => .patchEv (base ++ [d]) (l.resolvePatch q) 1

/-- A default build context for concrete runs. -/
def ctx0 : Ctx := ⟨"cc", "c++", "ar", "nm", "ranlib", [], [], [], 1, []⟩

/-- An empty starting state. -/
def st0 : St := ⟨ctx0, [], [], []⟩

/-- A context that already accumulated one flag in each list. -/
def ctxO2 : Ctx := ⟨"cc", "c++", "ar", "nm", "ranlib", ["-O2"], ["-O2"], ["-lm"], 1, []⟩

/-- A state whose context already accumulated flags. -/
def stO2 : St := ⟨ctxO2, [], [], []⟩

/-- An LLVM 5.0.0 instance with compiler_rt enabled. -/
def llvmA : LLVM := ⟨"5.0.0", true, false, none, [], []⟩

/-- An LLVM 5.0.0 instance with compiler_rt disabled. -/
def llvmB : LLVM := ⟨"5.0.0", false, false, none, [], []⟩

/-- A Gperftools instance at commit abc123 with libunwind 1.4-rc1. -/
def gpA : Gperftools := Gperftools.init "abc123" "1.4-rc1" []

/-- A Gperftools instance at the same commit with libunwind 1.5. -/
def gpB : Gperftools := Gperftools.init "abc123" "1.5" []

/-- A concrete LLVMBinDist instance with no binary suffix. -/
def binDist0 : LLVMBinDist := ⟨"11.0.0", "x86_64-linux-gnu-ubuntu-16.04", ""⟩

/-- The state after one full executor pass over binDist0, starting from
nothing on disk. -/
def binRun1 : St := (execute binDist0.ops st0).1

/-- A state in which all three of binDist0's stage artifacts exist. -/
def binReady : St :=
  ⟨ctx0, [["llvmbin-11.0.0"], ["llvmbin-11.0.0", "src"], ["llvmbin-11.0.0", "install"]], [], []⟩

/-- First construction of LLVM("4.0.0", compiler_rt=True) with the
patches argument omitted. -/
def c10a : LLVMObj × World := LLVMObj.init World.init "4.0.0" true none false none []

/-- Second construction of LLVM("4.0.0", compiler_rt=True) with the
patches argument omitted, in the world left by the first. -/
def c10b : LLVMObj × World := LLVMObj.init c10a.2 "4.0.0" true none false none []

/- ---------------------------------------------------------------- -/
/- Supporting lemmas                                                 -/
/- ---------------------------------------------------------------- -/

/-- Reading a heap cell just overwritten returns the new value. -/
theorem heapGet_set (h : PatchHeap) (r : Nat) (v : List PatchRef)
    (hr : r < h.length) : heapGet (h.set r v) r = v := by
  induction h generalizing r with
  | nil => simp at hr
  | cons a as ih =>
    cases r with
    | zero => simp [heapGet]
    | succ n =>
      simp only [List.set]
      simpa [heapGet] using ih n (by simpa using hr)

/- ---------------------------------------------------------------- -/
/- C1                                                                -/
/- ---------------------------------------------------------------- -/

/-- C1 counterexample: LLVM.configure removes flags.  On a context whose
cflags already contain "-O2", the configure call of an LLVM package
leaves cflags empty, so a flag present before the call is no longer
present after it, refuting the claim that every configure call only
appends. -/
theorem claim1Counterexample :
    stO2.ctx.cflags.contains "-O2" = true ∧
    (LLVM.configure llvmA stO2).ctx.cflags.contains "-O2" = false ∧
    stO2.ctx.ldflags.contains "-lm" = true ∧
    (LLVM.configure llvmA stO2).ctx.ldflags.contains "-lm" = false := by
  decide

/-- C1 (amended): the configure operations of LibUnwind and Gperftools
are strictly additive — every flag list after the call is the list before
the call with new flags appended at the end — but LLVM.configure instead
sets the toolchain program names and resets cflags, cxxflags and ldflags
to empty lists. -/
theorem claim1Theorem (lu : LibUnwind) (g : Gperftools) (l : LLVM) (st : St) :
    (lu.configure st).ctx.cflags = st.ctx.cflags ∧
    (lu.configure st).ctx.cxxflags = st.ctx.cxxflags ∧
    (∃ t, (lu.configure st).ctx.ldflags = st.ctx.ldflags ++ t) ∧
    (∃ t, (g.configure st).ctx.cflags = st.ctx.cflags ++ t) ∧
    (∃ t, (g.configure st).ctx.cxxflags = st.ctx.cxxflags ++ t) ∧
    (∃ t, (g.configure st).ctx.ldflags = st.ctx.ldflags ++ t) ∧
    (l.configure st).ctx.cflags = [] ∧
    (l.configure st).ctx.cxxflags = [] ∧
    (l.configure st).ctx.ldflags = [] := by
  refine ⟨rfl, rfl, ⟨_, rfl⟩, ⟨_, rfl⟩, ⟨_, rfl⟩,
    ⟨["-L" ++ pathStr (pkgPath g.libunwind.ident ["install", "lib"]), "-lunwind"] ++
      ["-L" ++ pathStr (pkgPath g.ident ["install", "lib"]), "-ltcmalloc", "-lpthread"], ?_⟩,
    rfl, rfl, rfl⟩
  simp [Gperftools.configure, LibUnwind.configure]

/- ---------------------------------------------------------------- -/
/- C3                                                                -/
/- ---------------------------------------------------------------- -/

/-- C3 counterexample: two LLVM instances that differ in the
variant-affecting parameter compiler_rt share the identifier
"llvm-5.0.0", and two Gperftools instances that differ in
libunwind_version share the identifier "gperftools-abc123", refuting
collision-freedom of the identifier. -/
theorem claim3Counterexample :
    llvmA.compiler_rt ≠ llvmB.compiler_rt ∧ llvmA.ident = llvmB.ident ∧
    gpA.libunwind.version ≠ gpB.libunwind.version ∧ gpA.ident = gpB.ident := by
  decide

/-- C3 (amended): the identifier is determined by the version and the lld
flag alone for LLVM, by the commit alone for Gperftools, and by the
version alone for LibUnwind and LLVMBinDist; instances that differ only
in the remaining construction parameters (compiler_rt, commit, patches,
build_flags, libunwind_version, target, bin_suffix) therefore share an
identifier, so the identifier is not collision-free across
variant-affecting parameters. -/
theorem claim3Theorem :
    (∀ p q : LLVM, p.version = q.version → p.lld = q.lld → p.ident = q.ident) ∧
    (∀ p q : Gperftools, p.commit = q.commit → p.ident = q.ident) ∧
    (∀ p q : LibUnwind, p.version = q.version → p.ident = q.ident) ∧
    (∀ p q : LLVMBinDist, p.version = q.version → p.ident = q.ident) := by
  refine ⟨fun p q h1 h2 => ?_, fun p q h => ?_, fun p q h => ?_, fun p q h => ?_⟩ <;>
    simp [LLVM.ident, Gperftools.ident, LibUnwind.ident, LLVMBinDist.ident, *]

/-- C3 witness: the amended dependence applied at the concrete colliding
instances. -/
theorem claim3Witness : llvmA.ident = llvmB.ident ∧ gpA.ident = gpB.ident :=
  ⟨claim3Theorem.1 llvmA llvmB rfl rfl, claim3Theorem.2.1 gpA gpB rfl⟩

/- ---------------------------------------------------------------- -/
/- C2                                                                -/
/- ---------------------------------------------------------------- -/

/-- C2 counterexample: after one complete executor pass over an
LLVMBinDist package starting from nothing on disk, the is_fetched probe
reports false in the post-run state (install moved src to install), and a
second executor pass performs one fetch invocation rather than zero. -/
theorem claim2Counterexample :
    (binDist0.ops.is_fetched (position binDist0.ops.iden binRun1)).1 = false ∧
    (execute binDist0.ops binRun1).2 = ⟨1, 0, 0⟩ := by
  decide

/-- C2 (amended): whenever the post-run state does satisfy all three
probes, a second executor run with no force flags performs zero fetch,
build and install invocations; LLVMBinDist however does not reach such a
state — its install moves src to install, so after a complete first run
is_fetched is false and the second run performs exactly one fetch and
zero build and install invocations. -/
theorem claim2Theorem (p : PackageOps) (st : St)
    (h1 : (p.is_fetched (position p.iden st)).1 = true)
    (h2 : (p.is_built (p.is_fetched (position p.iden st)).2).1 = true)
    (h3 : (p.is_installed (p.is_built (p.is_fetched (position p.iden st)).2).2).1 = true) :
    (execute p st).2 = ⟨0, 0, 0⟩ ∧
    (execute binDist0.ops binRun1).2 = ⟨1, 0, 0⟩ := by
  refine ⟨?_, by decide⟩
  unfold execute
  simp only [h1, if_true, h2, h3, if_pos]

/-- C2 witness: on a state where all three of binDist0's artifacts exist,
the executor performs zero mutating invocations. -/
theorem claim2Witness : (execute binDist0.ops binReady).2 = ⟨0, 0, 0⟩ :=
  (claim2Theorem binDist0.ops binReady (by decide) (by decide) (by decide)).1

/- ---------------------------------------------------------------- -/
/- C6                                                                -/
/- ---------------------------------------------------------------- -/

/-- C6: a patch reference containing a path separator is passed to the
patch-application primitive verbatim, and a bare name resolves to a file
in the built-in patch directory of the package's own module — for
LibUnwind/Gperftools `<packagesDir>/<name>.patch`, for LLVM additionally
suffixed with the package version,
`<llvmDir>/<name>-<version>.patch`. -/
theorem claim6Theorem (ref : String) (l : LLVM) :
    (strHasSlash ref = true →
      LibUnwind.resolvePatch ref = ref ∧ l.resolvePatch ref = ref) ∧
    (strHasSlash ref = false →
      LibUnwind.resolvePatch ref = packagesDir ++ "/" ++ ref ++ ".patch" ∧
      l.resolvePatch ref = llvmDir ++ "/" ++ ref ++ "-" ++ l.version ++ ".patch") := by
  constructor <;> intro h <;>
    simp [LibUnwind.resolvePatch, LLVM.resolvePatch, h]

/-- C6 witness: the resolution rule applied at a path-bearing reference
and at a bare name. -/
theorem claim6Witness :
    LibUnwind.resolvePatch "patches/fix.patch" = "patches/fix.patch" ∧
    LibUnwind.resolvePatch "typefix" = "/infra/packages/typefix.patch" ∧
    llvmA.resolvePatch "gold-plugins" = "/infra/packages/llvm/gold-plugins-5.0.0.patch" :=
  ⟨((claim6Theorem "patches/fix.patch" llvmA).1 (by decide)).1,
   ((claim6Theorem "typefix" llvmA).2 (by decide)).1,
   ((claim6Theorem "gold-plugins" llvmA).2 (by decide)).2⟩

/- ---------------------------------------------------------------- -/
/- C8                                                                -/
/- ---------------------------------------------------------------- -/

/-- C8: with an empty declared patch list, LLVM.is_installed returns true
exactly when the preinstalled llvm-config probe succeeds with exit status
zero and reports (after trimming) the required version, independent of
any local install artifact; when the reported version differs, when the
probe exits non-zero or cannot run, or when any patches are declared, the
result is the existence of install/bin/llvm-config. -/
theorem claim8Theorem (p : LLVM) (e : ExtWorld) (st : St) (out : String) (rc : Int) :
    (p.patches = [] → e.llvmConfig = some (0, out) → strTrim out = p.version →
      (p.is_installed e st).1 = true) ∧
    (p.patches = [] → e.llvmConfig = some (0, out) → strTrim out ≠ p.version →
      (p.is_installed e st).1 = pathExists st ["install", "bin", "llvm-config"]) ∧
    (p.patches = [] → e.llvmConfig = some (rc, out) → rc ≠ 0 →
      (p.is_installed e st).1 = pathExists st ["install", "bin", "llvm-config"]) ∧
    (p.patches = [] → e.llvmConfig = none →
      (p.is_installed e st).1 = pathExists st ["install", "bin", "llvm-config"]) ∧
    (p.patches ≠ [] →
      (p.is_installed e st).1 = pathExists st ["install", "bin", "llvm-config"]) := by
  refine ⟨fun hp hc hv => ?_, fun hp hc hv => ?_, fun hp hc hv => ?_,
          fun hp hc => ?_, fun hp => ?_⟩
  · simp [LLVM.is_installed, hp, hc, hv]
  · simp [LLVM.is_installed, hp, hc, hv, pathExists, logDebug]
  · simp [LLVM.is_installed, hp, hc, hv, pathExists, logDebug]
  · simp [LLVM.is_installed, hp, hc, pathExists]
  · simp [LLVM.is_installed, hp, pathExists]

/-- C8 witness: a preinstalled llvm-config reporting "5.0.0" (with a
trailing newline) satisfies an unpatched LLVM 5.0.0 package on an empty
filesystem, while a mismatching report falls back to the (absent) local
artifact. -/
theorem claim8Witness :
    (llvmB.is_installed ⟨fun _ => false, some (0, "5.0.0\n")⟩ st0).1 = true ∧
    (llvmB.is_installed ⟨fun _ => false, some (0, "7.0.0\n")⟩ st0).1 =
      pathExists st0 ["install", "bin", "llvm-config"] :=
  ⟨(claim8Theorem llvmB ⟨fun _ => false, some (0, "5.0.0\n")⟩ st0 "5.0.0\n" 0).1
      rfl rfl (by decide),
   (claim8Theorem llvmB ⟨fun _ => false, some (0, "7.0.0\n")⟩ st0 "7.0.0\n" 0).2.1
      rfl rfl (by decide)⟩

/- ---------------------------------------------------------------- -/
/- C9                                                                -/
/- ---------------------------------------------------------------- -/

/-- C9: every probe of every package is a side-effect-free read — the
exists-based probes return the state unchanged, and LLVM.is_installed
(which may run the llvm-config probe process and log a debug message)
preserves all compiler/linker program names, all three flag lists, the
filesystem and the working directory. -/
theorem claim9Theorem (lu : LibUnwind) (g : Gperftools) (l : LLVM)
    (b : LLVMBinDist) (e : ExtWorld) (st : St) :
    (lu.is_fetched st).2 = st ∧ (lu.is_built st).2 = st ∧
    (lu.is_installed st).2 = st ∧
    (g.is_fetched st).2 = st ∧ (g.is_built st).2 = st ∧
    (g.is_installed st).2 = st ∧
    (l.is_fetched st).2 = st ∧ (l.is_built st).2 = st ∧
    framePreserved st (l.is_installed e st).2 ∧
    (b.is_fetched st).2 = st ∧ (b.is_built st).2 = st ∧
    (b.is_installed st).2 = st := by
  refine ⟨rfl, rfl, rfl, rfl, rfl, rfl, rfl, rfl, ?_, rfl, rfl, rfl⟩
  have hframe : ∀ s : St, ∀ t : List Event,
      framePreserved st s → framePreserved st { s with trace := t } := by
    intro s t h; exact h
  have hlog : ∀ s : St, ∀ m : String,
      framePreserved st s → framePreserved st (logDebug s m) := by
    intro s m h; exact h
  have hself : framePreserved st st := ⟨rfl, rfl, rfl, rfl, rfl, rfl, rfl, rfl, rfl, rfl⟩
  unfold LLVM.is_installed
  split
  · rcases e.llvmConfig with _ | ⟨rc, out⟩
    · exact hframe st _ hself
    · dsimp only
      split
      · split
        · exact hframe st _ hself
        · exact hlog _ _ (hframe st _ hself)
      · exact hframe st _ hself
  · exact hself

/- ---------------------------------------------------------------- -/
/- C10                                                               -/
/- ---------------------------------------------------------------- -/

/-- C10: constructing LLVM("4.0.0", compiler_rt=True) with the patches
argument omitted appends to the single shared default list — after two
such constructions both instances reference the same list, which contains
"compiler-rt-typefix" twice — and when a caller supplies its own list the
same append mutates that list in place. -/
theorem claim10Theorem (w : World) (r : Nat) (hr : r < w.heap.length) :
    c10a.1.patches = c10b.1.patches ∧
    heapGet c10b.2.heap c10a.1.patches =
      [.plain "compiler-rt-typefix", .plain "compiler-rt-typefix"] ∧
    heapGet c10b.2.heap c10b.1.patches =
      [.plain "compiler-rt-typefix", .plain "compiler-rt-typefix"] ∧
    heapGet ((LLVMObj.init w "4.0.0" true none false (some r) []).2).heap r =
      heapGet w.heap r ++ [.plain "compiler-rt-typefix"] := by
  refine ⟨by decide, by decide, by decide, ?_⟩
  simp [LLVMObj.init, heapAppend, heapGet_set w.heap r _ hr]

/-- C10 witness: the caller-supplied-list mutation applied at a concrete
world holding one caller list with one existing entry. -/
theorem claim10Witness :
    heapGet ((LLVMObj.init ⟨[[], [.plain "gold-plugins"]], 0⟩ "4.0.0" true none false
        (some 1) []).2).heap 1 =
      [.plain "gold-plugins", .plain "compiler-rt-typefix"] :=
  (claim10Theorem ⟨[[], [.plain "gold-plugins"]], 0⟩ 1 (by decide)).2.2.2

/- ---------------------------------------------------------------- -/
/- Trace-extension lemmas                                            -/
/- ---------------------------------------------------------------- -/

/-- The empty trace fragment is patch-free. -/
theorem patchFree_nil : patchFree [] := by
  intro ev h
  cases h

/-- Patch-free fragments concatenate. -/
theorem patchFree_append {t1 t2 : List Event} (h1 : patchFree t1) (h2 : patchFree t2) :
    patchFree (t1 ++ t2) := by
  intro ev hev
  rcases List.mem_append.1 hev with h | h
  exacts [h1 ev h, h2 ev h]

/-- traceExt is reflexive. -/
theorem traceExt_refl (a : St) : traceExt a a :=
  ⟨[], by simp, patchFree_nil⟩

/-- traceExt is transitive. -/
theorem traceExt_trans {a b c : St} (h1 : traceExt a b) (h2 : traceExt b c) :
    traceExt a c := by
  obtain ⟨t1, e1, p1⟩ := h1
  obtain ⟨t2, e2, p2⟩ := h2
  exact ⟨t1 ++ t2, by rw [e2, e1, List.append_assoc], patchFree_append p1 p2⟩

/-- A step that leaves the trace unchanged is a patch-free extension. -/
theorem traceExt_same {a b : St} (h : b.trace = a.trace) : traceExt a b :=
  ⟨[], by simp [h], patchFree_nil⟩

/-- makedirs never records an invocation. -/
theorem makedirs_trace (st : St) (p : FsPath) : (makedirs st p).trace = st.trace := by
  unfold makedirs addPath
  split <;> rfl

/-- Running a command extends the trace patch-freely. -/
theorem traceExt_runCmd (st : St) (args : List String) : traceExt st (runCmd st args) :=
  ⟨[.cmdEv st.cwd args], rfl, by simp [patchFree, Event.isPatch]⟩

/-- Running a shell command extends the trace patch-freely. -/
theorem traceExt_runShell (st : St) (c : String) : traceExt st (runShell st c) :=
  ⟨[.shellEv st.cwd c], rfl, by simp [patchFree, Event.isPatch]⟩

/-- Downloading extends the trace patch-freely. -/
theorem traceExt_download (st : St) (u : String) : traceExt st (download st u) :=
  ⟨[.downloadEv st.cwd u], rfl, by simp [patchFree, Event.isPatch]⟩

/-- Appending a run-command step on the right preserves patch-free
extension. -/
theorem traceExt_runCmd_r {a b : St} (h : traceExt a b) (args : List String) :
    traceExt a (runCmd b args) :=
  traceExt_trans h (traceExt_runCmd b args)

/-- Appending a shell step on the right preserves patch-free extension. -/
theorem traceExt_runShell_r {a b : St} (h : traceExt a b) (c : String) :
    traceExt a (runShell b c) :=
  traceExt_trans h (traceExt_runShell b c)

/-- Appending a download step on the right preserves patch-free
extension. -/
theorem traceExt_download_r {a b : St} (h : traceExt a b) (u : String) :
    traceExt a (download b u) :=
  traceExt_trans h (traceExt_download b u)

/-- Appending a makedirs step on the right preserves patch-free
extension. -/
theorem traceExt_makedirs_r {a b : St} (h : traceExt a b) (p : FsPath) :
    traceExt a (makedirs b p) :=
  traceExt_trans h (traceExt_same (makedirs_trace b p))

/-- Appending an addPath step on the right preserves patch-free
extension. -/
theorem traceExt_addPath_r {a b : St} (h : traceExt a b) (p : FsPath) :
    traceExt a (addPath b p) :=
  traceExt_trans h (traceExt_same rfl)

/-- Appending a removePath step on the right preserves patch-free
extension. -/
theorem traceExt_removePath_r {a b : St} (h : traceExt a b) (p : FsPath) :
    traceExt a (removePath b p) :=
  traceExt_trans h (traceExt_same rfl)

/-- Appending an fsMove step on the right preserves patch-free
extension. -/
theorem traceExt_fsMove_r {a b : St} (h : traceExt a b) (x y : FsPath) :
    traceExt a (fsMove b x y) :=
  traceExt_trans h (traceExt_same rfl)

/-- Appending a relative chdir on the right preserves patch-free
extension. -/
theorem traceExt_chdirRel_r {a b : St} (h : traceExt a b) (p : FsPath) :
    traceExt a (chdirRel b p) :=
  traceExt_trans h (traceExt_same rfl)

/-- Appending an absolute chdir on the right preserves patch-free
extension. -/
theorem traceExt_chdirAbs_r {a b : St} (h : traceExt a b) (p : FsPath) :
    traceExt a (chdirAbs b p) :=
  traceExt_trans h (traceExt_same rfl)

/-- The tarball helper of LLVM.fetch records only a download and a tar
invocation: a patch-free extension. -/
theorem llvm_get_traceExt (p : LLVM) (repo : String) (cd : FsPath) (st : St) :
    traceExt st (p.get repo cd st) := by
  unfold LLVM.get
  apply traceExt_removePath_r
  apply traceExt_fsMove_r
  apply traceExt_addPath_r
  apply traceExt_runCmd_r
  split
  · apply traceExt_download_r _ _
    rcases cd.dropLast with _ | ⟨b, bs⟩
    · exact traceExt_refl st
    · exact traceExt_makedirs_r (traceExt_refl st) _
  · apply traceExt_download_r _ _
    rcases cd.dropLast with _ | ⟨b, bs⟩
    · exact traceExt_refl st
    · exact traceExt_makedirs_r (traceExt_refl st) _

/-- Appending a tarball fetch on the right preserves patch-free
extension. -/
theorem traceExt_get_r {a b : St} (p : LLVM) (repo : String) (cd : FsPath)
    (h : traceExt a b) : traceExt a (p.get repo cd b) :=
  traceExt_trans h (llvm_get_traceExt p repo cd b)

/-- LibUnwind.fetch applies no patches. -/
theorem lu_fetch_traceExt (p : LibUnwind) (st : St) : traceExt st (p.fetch st) := by
  unfold LibUnwind.fetch
  apply traceExt_removePath_r
  apply traceExt_fsMove_r
  apply traceExt_addPath_r
  apply traceExt_runCmd_r
  exact traceExt_download st _

/-- Gperftools.fetch applies no patches. -/
theorem gp_fetch_traceExt (p : Gperftools) (st : St) : traceExt st (p.fetch st) := by
  unfold Gperftools.fetch
  apply traceExt_runCmd_r
  apply traceExt_chdirRel_r
  apply traceExt_addPath_r
  exact traceExt_runShell st _

/-- LLVM.fetch applies no patches. -/
theorem llvm_fetch_traceExt (p : LLVM) (st : St) : traceExt st (p.fetch st) := by
  unfold LLVM.fetch
  rcases hc : p.commit with _ | c <;> dsimp only
  · by_cases h9 : 9 ≤ majorVersion p.version
    · rw [if_pos h9]
      exact llvm_get_traceExt p _ _ st
    · rw [if_neg h9]
      by_cases hlld : p.lld = true
      · rw [if_pos hlld]
        apply traceExt_get_r
        by_cases hrt : p.compiler_rt = true
        · rw [if_pos hrt]
          apply traceExt_get_r
          by_cases h8 : 8 ≤ majorVersion p.version
          · rw [if_pos h8]; exact traceExt_get_r _ _ _ (llvm_get_traceExt _ _ _ _)
          · rw [if_neg h8]; exact traceExt_get_r _ _ _ (llvm_get_traceExt _ _ _ _)
        · rw [if_neg hrt]
          by_cases h8 : 8 ≤ majorVersion p.version
          · rw [if_pos h8]; exact traceExt_get_r _ _ _ (llvm_get_traceExt _ _ _ _)
          · rw [if_neg h8]; exact traceExt_get_r _ _ _ (llvm_get_traceExt _ _ _ _)
      · rw [if_neg hlld]
        by_cases hrt : p.compiler_rt = true
        · rw [if_pos hrt]
          apply traceExt_get_r
          by_cases h8 : 8 ≤ majorVersion p.version
          · rw [if_pos h8]; exact traceExt_get_r _ _ _ (llvm_get_traceExt _ _ _ _)
          · rw [if_neg h8]; exact traceExt_get_r _ _ _ (llvm_get_traceExt _ _ _ _)
        · rw [if_neg hrt]
          by_cases h8 : 8 ≤ majorVersion p.version
          · rw [if_pos h8]; exact traceExt_get_r _ _ _ (llvm_get_traceExt _ _ _ _)
          · rw [if_neg h8]; exact traceExt_get_r _ _ _ (llvm_get_traceExt _ _ _ _)
  · apply traceExt_runCmd_r
    apply traceExt_chdirRel_r
    apply traceExt_addPath_r
    exact traceExt_runCmd st _

/-- LLVMBinDist.fetch applies no patches. -/
theorem bin_fetch_traceExt (p : LLVMBinDist) (st : St) : traceExt st (p.fetch st) := by
  unfold LLVMBinDist.fetch
  apply traceExt_removePath_r
  apply traceExt_fsMove_r
  apply traceExt_addPath_r
  apply traceExt_runCmd_r
  exact traceExt_download st _

/-- The compile part of LibUnwind.build applies no patches. -/
theorem lu_buildCompile_traceExt (p : LibUnwind) (st : St) :
    traceExt st (p.buildCompile st) := by
  unfold LibUnwind.buildCompile
  apply traceExt_runShell_r
  split
  · exact traceExt_runCmd_r (traceExt_chdirRel_r (traceExt_makedirs_r (traceExt_refl st) _) _) _
  · exact traceExt_chdirRel_r (traceExt_makedirs_r (traceExt_refl st) _) _

/-- The autoreconf/configure/compile part of Gperftools.build applies no
patches. -/
theorem gp_buildCompile_traceExt (p : Gperftools) (st : St) :
    traceExt st (p.buildCompile st) := by
  unfold Gperftools.buildCompile
  apply traceExt_runShell_r
  have h1 : traceExt st
      (chdirAbs (runShell (chdirRel st ["src"]) "autoreconf -vfi") (pkgPath p.ident [])) :=
    traceExt_chdirAbs_r (traceExt_runShell_r (traceExt_chdirRel_r (traceExt_refl st) _) _) _
  split
  · split
    · exact traceExt_runCmd_r (traceExt_chdirRel_r (traceExt_makedirs_r h1 _) _) _
    · exact traceExt_chdirRel_r (traceExt_makedirs_r h1 _) _
  · split
    · exact traceExt_runCmd_r (traceExt_chdirRel_r (traceExt_makedirs_r (traceExt_refl st) _) _) _
    · exact traceExt_chdirRel_r (traceExt_makedirs_r (traceExt_refl st) _) _

/-- The cmake part of LLVM.build applies no patches. -/
theorem llvm_buildCompile_traceExt (p : LLVM) (st : St) :
    traceExt st (p.buildCompile st) := by
  unfold LLVM.buildCompile
  apply traceExt_runShell_r
  split
  · exact traceExt_runCmd_r (traceExt_chdirRel_r (traceExt_makedirs_r (traceExt_refl st) _) _) _
  · exact traceExt_runCmd_r (traceExt_chdirRel_r (traceExt_makedirs_r (traceExt_refl st) _) _) _

/- ---------------------------------------------------------------- -/
/- Patch-phase characterizations                                     -/
/- ---------------------------------------------------------------- -/

/-- One LibUnwind patch step records exactly one patch application, in
the current working directory, and touches nothing but the trace and the
log. -/
theorem lu_patchStep_trace (e : ExtWorld) (st : St) (r : String) :
    (LibUnwind.patchStep e st r).trace
        = st.trace ++ [Event.patchEv st.cwd (LibUnwind.resolvePatch r) 1] ∧
    (LibUnwind.patchStep e st r).cwd = st.cwd ∧
    (LibUnwind.patchStep e st r).fs = st.fs := by
  unfold LibUnwind.patchStep applyPatchPrim
  by_cases h : e.patchApplies (LibUnwind.resolvePatch r) = true <;>
    simp [h, logWarning]

/-- One Gperftools patch step records exactly one patch application, in
the current working directory, and touches nothing but the trace and the
log. -/
theorem gp_patchStep_trace (e : ExtWorld) (st : St) (r : String) :
    (Gperftools.patchStep e st r).trace
        = st.trace ++ [Event.patchEv st.cwd (LibUnwind.resolvePatch r) 1] ∧
    (Gperftools.patchStep e st r).cwd = st.cwd ∧
    (Gperftools.patchStep e st r).fs = st.fs := by
  unfold Gperftools.patchStep applyPatchPrim
  by_cases h : e.patchApplies (LibUnwind.resolvePatch r) = true <;>
    simp [h, logWarning]

/-- The LibUnwind patch loop records exactly the declared patches in
order, all in the working directory it started in, and preserves the
working directory and the filesystem. -/
theorem lu_fold_trace (e : ExtWorld) (l : List String) (st : St) :
    (l.foldl (LibUnwind.patchStep e) st).trace
        = st.trace ++ l.map (fun r => Event.patchEv st.cwd (LibUnwind.resolvePatch r) 1) ∧
    (l.foldl (LibUnwind.patchStep e) st).cwd = st.cwd ∧
    (l.foldl (LibUnwind.patchStep e) st).fs = st.fs := by
  induction l generalizing st with
  | nil => simp
  | cons r rs ih =>
    obtain ⟨h1, h2, h3⟩ := lu_patchStep_trace e st r
    obtain ⟨g1, g2, g3⟩ := ih (LibUnwind.patchStep e st r)
    refine ⟨?_, by rw [List.foldl_cons, g2, h2], by rw [List.foldl_cons, g3, h3]⟩
    rw [List.foldl_cons, g1, h1, h2]
    simp

/-- The Gperftools patch loop records exactly the declared patches in
order, all in the working directory it started in, and preserves the
working directory and the filesystem. -/
theorem gp_fold_trace (e : ExtWorld) (l : List String) (st : St) :
    (l.foldl (Gperftools.patchStep e) st).trace
        = st.trace ++ l.map (fun r => Event.patchEv st.cwd (LibUnwind.resolvePatch r) 1) ∧
    (l.foldl (Gperftools.patchStep e) st).cwd = st.cwd ∧
    (l.foldl (Gperftools.patchStep e) st).fs = st.fs := by
  induction l generalizing st with
  | nil => simp
  | cons r rs ih =>
    obtain ⟨h1, h2, h3⟩ := gp_patchStep_trace e st r
    obtain ⟨g1, g2, g3⟩ := ih (Gperftools.patchStep e st r)
    refine ⟨?_, by rw [List.foldl_cons, g2, h2], by rw [List.foldl_cons, g3, h3]⟩
    rw [List.foldl_cons, g1, h1, h2]
    simp

/-- LibUnwind._apply_patches records exactly the declared patches, all
applied in the package's src directory, ends in the package root, and
leaves the filesystem unchanged. -/
theorem lu_apply_patches_trace (p : LibUnwind) (e : ExtWorld) (st : St) :
    (p._apply_patches e st).trace
        = st.trace ++ p.patches.map
            (fun r => Event.patchEv (pkgPath p.ident ["src"]) (LibUnwind.resolvePatch r) 1) ∧
    (p._apply_patches e st).cwd = pkgPath p.ident [] ∧
    (p._apply_patches e st).fs = st.fs := by
  unfold LibUnwind._apply_patches
  obtain ⟨h1, h2, h3⟩ := lu_fold_trace e p.patches (chdirAbs st (pkgPath p.ident ["src"]))
  exact ⟨by simpa [chdirAbs] using h1, by simp [chdirAbs], by simpa [chdirAbs] using h3⟩

/-- Gperftools._apply_patches records exactly the declared patches, all
applied in the package's src directory, ends in the package root, and
leaves the filesystem unchanged. -/
theorem gp_apply_patches_trace (p : Gperftools) (e : ExtWorld) (st : St) :
    (p._apply_patches e st).trace
        = st.trace ++ p.patches.map
            (fun r => Event.patchEv (pkgPath p.ident ["src"]) (LibUnwind.resolvePatch r) 1) ∧
    (p._apply_patches e st).cwd = pkgPath p.ident [] ∧
    (p._apply_patches e st).fs = st.fs := by
  unfold Gperftools._apply_patches
  obtain ⟨h1, h2, h3⟩ := gp_fold_trace e p.patches (chdirAbs st (pkgPath p.ident ["src"]))
  exact ⟨by simpa [chdirAbs] using h1, by simp [chdirAbs], by simpa [chdirAbs] using h3⟩

/-- One LLVM patch step records exactly one patch application — in the
current directory for a plain reference, in the named subdirectory for a
tuple reference — and restores the working directory. -/
theorem llvm_patchStep_trace (p : LLVM) (e : ExtWorld) (st : St) (ref : PatchRef) :
    (p.patchStep e st ref).trace = st.trace ++ [llvmPatchEv p st.cwd ref] ∧
    (p.patchStep e st ref).cwd = st.cwd ∧
    (p.patchStep e st ref).fs = st.fs := by
  cases ref <;> simp [LLVM.patchStep, applyPatchPrim, chdirRel, chdirAbs, llvmPatchEv]

/-- The LLVM patch loop records exactly the declared patches in order
(tuple references in their subdirectory), and preserves the working
directory and the filesystem. -/
theorem llvm_fold_trace (p : LLVM) (e : ExtWorld) (l : List PatchRef) (st : St) :
    (l.foldl (p.patchStep e) st).trace = st.trace ++ l.map (llvmPatchEv p st.cwd) ∧
    (l.foldl (p.patchStep e) st).cwd = st.cwd ∧
    (l.foldl (p.patchStep e) st).fs = st.fs := by
  induction l generalizing st with
  | nil => simp
  | cons r rs ih =>
    obtain ⟨h1, h2, h3⟩ := llvm_patchStep_trace p e st r
    obtain ⟨g1, g2, g3⟩ := ih (p.patchStep e st r)
    refine ⟨?_, by rw [List.foldl_cons, g2, h2], by rw [List.foldl_cons, g3, h3]⟩
    rw [List.foldl_cons, g1, h1, h2]
    simp

/-- The patch phase of LLVM.build records exactly the declared patches,
applied under the src subdirectory of the directory it started in,
restores the working directory it started in, and leaves the filesystem
unchanged. -/
theorem llvm_phase_trace (p : LLVM) (e : ExtWorld) (st : St) :
    (p.applyPatchesPhase e st).trace
        = st.trace ++ p.patches.map (llvmPatchEv p (st.cwd ++ ["src"])) ∧
    (p.applyPatchesPhase e st).cwd = st.cwd ∧
    (p.applyPatchesPhase e st).fs = st.fs := by
  unfold LLVM.applyPatchesPhase
  obtain ⟨h1, h2, h3⟩ := llvm_fold_trace p e p.patches (chdirRel st ["src"])
  refine ⟨by simpa [chdirRel, chdirUp] using h1, ?_, by simpa [chdirUp] using h3⟩
  show (List.foldl (p.patchStep e) (chdirRel st ["src"]) p.patches).cwd.dropLast = st.cwd
  rw [h2]
  simp [chdirRel, List.dropLast_concat]

/- ---------------------------------------------------------------- -/
/- Log-erasure commutation                                           -/
/- ---------------------------------------------------------------- -/

/-- Probing a path ignores the log. -/
theorem pathExists_eraseLog (s : St) (p : FsPath) :
    pathExists (eraseLog s) p = pathExists s p := rfl

/-- makedirs commutes with erasing the log. -/
theorem makedirs_eraseLog (s : St) (p : FsPath) :
    makedirs (eraseLog s) p = eraseLog (makedirs s p) := by
  unfold makedirs
  rw [pathExists_eraseLog]
  split <;> rfl

/-- chdirRel commutes with erasing the log. -/
theorem chdirRel_eraseLog (s : St) (p : FsPath) :
    chdirRel (eraseLog s) p = eraseLog (chdirRel s p) := rfl

/-- chdirAbs commutes with erasing the log. -/
theorem chdirAbs_eraseLog (s : St) (p : FsPath) :
    chdirAbs (eraseLog s) p = eraseLog (chdirAbs s p) := rfl

/-- runCmd commutes with erasing the log. -/
theorem runCmd_eraseLog (s : St) (a : List String) :
    runCmd (eraseLog s) a = eraseLog (runCmd s a) := rfl

/-- runShell commutes with erasing the log. -/
theorem runShell_eraseLog (s : St) (c : String) :
    runShell (eraseLog s) c = eraseLog (runShell s c) := rfl

/-- The job count ignores the log. -/
theorem jobs_eraseLog (s : St) : (eraseLog s).ctx.jobs = s.ctx.jobs := rfl

/-- The compile part of LibUnwind.build commutes with erasing the log:
it never reads or writes the log. -/
theorem lu_buildCompile_eraseLog (p : LibUnwind) (s : St) :
    p.buildCompile (eraseLog s) = eraseLog (p.buildCompile s) := by
  unfold LibUnwind.buildCompile
  dsimp only
  simp only [makedirs_eraseLog, chdirRel_eraseLog, pathExists_eraseLog,
    runCmd_eraseLog, ← apply_ite eraseLog, jobs_eraseLog, runShell_eraseLog]

/-- The autoreconf/configure/compile part of Gperftools.build commutes
with erasing the log. -/
theorem gp_buildCompile_eraseLog (p : Gperftools) (s : St) :
    p.buildCompile (eraseLog s) = eraseLog (p.buildCompile s) := by
  unfold Gperftools.buildCompile
  dsimp only
  simp only [makedirs_eraseLog, chdirRel_eraseLog, chdirAbs_eraseLog,
    pathExists_eraseLog, runCmd_eraseLog, runShell_eraseLog,
    ← apply_ite eraseLog, jobs_eraseLog]

/-- The cmake part of LLVM.build commutes with erasing the log. -/
theorem llvm_buildCompile_eraseLog (p : LLVM) (s : St) :
    p.buildCompile (eraseLog s) = eraseLog (p.buildCompile s) := by
  unfold LLVM.buildCompile
  dsimp only
  simp only [makedirs_eraseLog, chdirRel_eraseLog, runCmd_eraseLog,
    ← apply_ite eraseLog, jobs_eraseLog, runShell_eraseLog]

/-- Erasing the log after updating the trace is updating the trace of the
erased state. -/
theorem eraseLog_trace_mk (s : St) (t : List Event) :
    eraseLog { s with trace := t } = { eraseLog s with trace := t } := rfl

/-- A LibUnwind patch step, seen modulo the log, appends exactly its
patch event: the boolean returned by the patch primitive only selects
whether a warning is logged. -/
theorem lu_patchStep_eraseLog (e : ExtWorld) (s : St) (r : String) :
    eraseLog (LibUnwind.patchStep e s r)
      = { eraseLog s with
          trace := s.trace ++ [.patchEv s.cwd (LibUnwind.resolvePatch r) 1] } := by
  unfold LibUnwind.patchStep applyPatchPrim
  by_cases h : e.patchApplies (LibUnwind.resolvePatch r) = true <;>
    simp [h, logWarning, eraseLog]

/-- A Gperftools patch step, seen modulo the log, appends exactly its
patch event. -/
theorem gp_patchStep_eraseLog (e : ExtWorld) (s : St) (r : String) :
    eraseLog (Gperftools.patchStep e s r)
      = { eraseLog s with
          trace := s.trace ++ [.patchEv s.cwd (LibUnwind.resolvePatch r) 1] } := by
  unfold Gperftools.patchStep applyPatchPrim
  by_cases h : e.patchApplies (LibUnwind.resolvePatch r) = true <;>
    simp [h, logWarning, eraseLog]

/-- The LibUnwind patch loop, seen modulo the log, does not depend on the
patch primitive's booleans. -/
theorem lu_fold_eraseLog (e1 e2 : ExtWorld) (l : List String) (s1 s2 : St)
    (h : eraseLog s1 = eraseLog s2) :
    eraseLog (l.foldl (LibUnwind.patchStep e1) s1)
      = eraseLog (l.foldl (LibUnwind.patchStep e2) s2) := by
  induction l generalizing s1 s2 with
  | nil => simpa using h
  | cons r rs ih =>
    rw [List.foldl_cons, List.foldl_cons]
    apply ih
    have ht : s1.trace = s2.trace := by
      have h2 := congrArg St.trace h
      simpa [eraseLog] using h2
    have hc : s1.cwd = s2.cwd := by
      have h2 := congrArg St.cwd h
      simpa [eraseLog] using h2
    rw [lu_patchStep_eraseLog, lu_patchStep_eraseLog, ht, hc, h]

/-- The Gperftools patch loop, seen modulo the log, does not depend on
the patch primitive's booleans. -/
theorem gp_fold_eraseLog (e1 e2 : ExtWorld) (l : List String) (s1 s2 : St)
    (h : eraseLog s1 = eraseLog s2) :
    eraseLog (l.foldl (Gperftools.patchStep e1) s1)
      = eraseLog (l.foldl (Gperftools.patchStep e2) s2) := by
  induction l generalizing s1 s2 with
  | nil => simpa using h
  | cons r rs ih =>
    rw [List.foldl_cons, List.foldl_cons]
    apply ih
    have ht : s1.trace = s2.trace := by
      have h2 := congrArg St.trace h
      simpa [eraseLog] using h2
    have hc : s1.cwd = s2.cwd := by
      have h2 := congrArg St.cwd h
      simpa [eraseLog] using h2
    rw [gp_patchStep_eraseLog, gp_patchStep_eraseLog, ht, hc, h]

/-- LibUnwind._apply_patches, seen modulo the log, does not depend on the
patch primitive's booleans. -/
theorem lu_apply_patches_eraseLog (p : LibUnwind) (e1 e2 : ExtWorld) (st : St) :
    eraseLog (p._apply_patches e1 st) = eraseLog (p._apply_patches e2 st) := by
  unfold LibUnwind._apply_patches
  rw [← chdirAbs_eraseLog, ← chdirAbs_eraseLog]
  rw [lu_fold_eraseLog e1 e2 p.patches _ _ rfl]

/-- Gperftools._apply_patches, seen modulo the log, does not depend on
the patch primitive's booleans. -/
theorem gp_apply_patches_eraseLog (p : Gperftools) (e1 e2 : ExtWorld) (st : St) :
    eraseLog (p._apply_patches e1 st) = eraseLog (p._apply_patches e2 st) := by
  unfold Gperftools._apply_patches
  rw [← chdirAbs_eraseLog, ← chdirAbs_eraseLog]
  rw [gp_fold_eraseLog e1 e2 p.patches _ _ rfl]

/-- The LLVM patch step discards the patch primitive's boolean
entirely. -/
theorem llvm_patchStep_extIrrel (p : LLVM) (e1 e2 : ExtWorld) :
    p.patchStep e1 = p.patchStep e2 := by
  funext st ref
  cases ref <;> rfl

/- ---------------------------------------------------------------- -/
/- C4                                                                -/
/- ---------------------------------------------------------------- -/

/-- C4: every build operation first records exactly the declared patch
applications, in declaration order, and only then a patch-free tail
containing the configure/compile invocations; and no fetch operation
records any patch application. -/
theorem claim4Theorem (lu : LibUnwind) (g : Gperftools) (l : LLVM)
    (b : LLVMBinDist) (e : ExtWorld) (st : St) :
    (∃ t, (lu.build e st).trace
        = st.trace ++ lu.patches.map
            (fun r => Event.patchEv (pkgPath lu.ident ["src"]) (LibUnwind.resolvePatch r) 1) ++ t
      ∧ patchFree t) ∧
    (∃ t, (g.build e st).trace
        = st.trace ++ g.patches.map
            (fun r => Event.patchEv (pkgPath g.ident ["src"]) (LibUnwind.resolvePatch r) 1) ++ t
      ∧ patchFree t) ∧
    (∃ t, (l.build e st).trace
        = st.trace ++ l.patches.map (llvmPatchEv l (st.cwd ++ ["src"])) ++ t
      ∧ patchFree t) ∧
    traceExt st (lu.fetch st) ∧ traceExt st (g.fetch st) ∧
    traceExt st (l.fetch st) ∧ traceExt st (b.fetch st) := by
  refine ⟨?_, ?_, ?_, lu_fetch_traceExt lu st, gp_fetch_traceExt g st,
    llvm_fetch_traceExt l st, bin_fetch_traceExt b st⟩
  · obtain ⟨t, ht, pf⟩ := lu_buildCompile_traceExt lu (lu._apply_patches e st)
    refine ⟨t, ?_, pf⟩
    show (lu.buildCompile (lu._apply_patches e st)).trace = _
    rw [ht, (lu_apply_patches_trace lu e st).1]
  · obtain ⟨t, ht, pf⟩ := gp_buildCompile_traceExt g (g._apply_patches e st)
    refine ⟨t, ?_, pf⟩
    show (g.buildCompile (g._apply_patches e st)).trace = _
    rw [ht, (gp_apply_patches_trace g e st).1]
  · obtain ⟨t, ht, pf⟩ := llvm_buildCompile_traceExt l (l.applyPatchesPhase e st)
    refine ⟨t, ?_, pf⟩
    show (l.buildCompile (l.applyPatchesPhase e st)).trace = _
    rw [ht, (llvm_phase_trace l e st).1]

/- ---------------------------------------------------------------- -/
/- C5                                                                -/
/- ---------------------------------------------------------------- -/

/-- C5: the boolean returned by the patch-application primitive
influences only logging — two runs of any build under external worlds
that differ arbitrarily in which patches report a fresh modification
produce states identical except possibly in the log; for LLVM.build the
boolean is discarded outright, so the states agree on the log too. -/
theorem claim5Theorem (lu : LibUnwind) (g : Gperftools) (l : LLVM)
    (e1 e2 : ExtWorld) (st : St) :
    eraseLog (lu.build e1 st) = eraseLog (lu.build e2 st) ∧
    eraseLog (g.build e1 st) = eraseLog (g.build e2 st) ∧
    l.build e1 st = l.build e2 st := by
  refine ⟨?_, ?_, ?_⟩
  · show eraseLog (lu.buildCompile (lu._apply_patches e1 st))
        = eraseLog (lu.buildCompile (lu._apply_patches e2 st))
    rw [← lu_buildCompile_eraseLog, ← lu_buildCompile_eraseLog,
      lu_apply_patches_eraseLog lu e1 e2 st]
  · show eraseLog (g.buildCompile (g._apply_patches e1 st))
        = eraseLog (g.buildCompile (g._apply_patches e2 st))
    rw [← gp_buildCompile_eraseLog, ← gp_buildCompile_eraseLog,
      gp_apply_patches_eraseLog g e1 e2 st]
  · show l.buildCompile (l.applyPatchesPhase e1 st)
        = l.buildCompile (l.applyPatchesPhase e2 st)
    unfold LLVM.applyPatchesPhase
    rw [llvm_patchStep_extIrrel l e1 e2]

/- ---------------------------------------------------------------- -/
/- C7                                                                -/
/- ---------------------------------------------------------------- -/

/-- C7: the patch phase of LLVM.build applies a tuple-override patch
with the working directory moved into the named subdirectory of src,
records exactly the declared patches, and ends with the working
directory exactly where it started — the package's own working
directory — so the subsequent compile phase (build is the compile phase
applied after the patch phase) is unaffected by the overrides. -/
theorem claim7Theorem (l : LLVM) (e : ExtWorld) (st : St) :
    (l.applyPatchesPhase e st).cwd = st.cwd ∧
    (l.applyPatchesPhase e st).trace
      = st.trace ++ l.patches.map (llvmPatchEv l (st.cwd ++ ["src"])) ∧
    (∀ d q, llvmPatchEv l (st.cwd ++ ["src"]) (.sub d q)
      = .patchEv (st.cwd ++ ["src", d]) (l.resolvePatch q) 1) ∧
    l.build e st = l.buildCompile (l.applyPatchesPhase e st) := by
  refine ⟨(llvm_phase_trace l e st).2.1, (llvm_phase_trace l e st).1, ?_, rfl⟩
  intro d q
  simp [llvmPatchEv]
